import Mathlib

/-!
Shallow embedding of the ezbot ingestion core, written from the Python
sources:

* `src/core/questdb_manager/schema_manager.py` — column/table schemas,
  `ColumnDefinition.validate_value`, `TableSchema.validate_record`;
* `src/core/questdb_manager/client.py` — `QuestDBManager.execute_batch_insert`;
* `src/core/feed_registry/registry.py` — feed lifecycle, health scores,
  startup/shutdown ordering, heartbeat health checks;
* `src/core/questdb_manager/health_monitor.py` — threshold alerts with
  cooldown and auto-resolution.

Python floats are modelled as rationals (`ℚ`), wall-clock instants as
rationals (seconds), fallible code as `Except String`/`Option`, and the
behaviour of external collaborators (Python stdlib parsers, the database
connection, feed instances) as explicit functional parameters.
-/

namespace Ezbot

/-! ## Schema manager: column types and Python values -/

/-- `ColumnType` enum from `schema_manager.py`. -/
inductive ColumnType where
  | timestamp
  | symbol
  | string
  | double
  | float
  | long
  | int
  | boolean
  | date
  | binary
deriving DecidableEq, Repr

/-- A Python `float`: every finite double is an exact rational, plus the
non-finite values `nan` and `±inf` (`inf true` is `-inf`). -/
inductive PyFloat where
  | finite (q : ℚ)
  | nan
  | inf (neg : Bool)
deriving DecidableEq, Repr

/-- A Python runtime value as it flows through `validate_value`:
`None`, `bool`, `int`, `float` (a `PyFloat`), `str`,
`datetime.datetime` and `datetime.date` (each modelled by an integer
instant/ordinal). -/
inductive PyVal where
  | vNone
  | vBool (b : Bool)
  | vInt (n : ℤ)
  | vFloat (f : PyFloat)
  | vStr (s : String)
  | vDatetime (t : ℤ)
  | vDate (d : ℤ)
deriving DecidableEq, Repr

/-- Behaviour of the Python stdlib routines `validate_value` delegates to.
The embedding is parametric in these: `datetime.fromisoformat`,
`datetime.strptime(..., percent-Y-m-d').date()`, `float(str)` (which
also accepts `"nan"`/`"inf"`), and the textual `str(...)`
representations of floats, datetimes and dates. A parse returning
`none` models the `ValueError` the stdlib raises on malformed input. -/
structure PyEnv where
  parseIsoDatetime : String → Option ℤ
  parseDateStr : String → Option ℤ
  parseFloatStr : String → Option PyFloat
  reprFloat : PyFloat → String
  reprDatetime : ℤ → String
  reprDate : ℤ → String

/-- A concrete, trivial stdlib behaviour used to evaluate the model on
closed inputs. -/
def defaultPyEnv : PyEnv where
  parseIsoDatetime _ := none
  parseDateStr _ := none
  parseFloatStr _ := none
  reprFloat _ := ""
  reprDatetime _ := ""
  reprDate _ := ""

/-- `ColumnDefinition` dataclass from `schema_manager.py` (the
presentation-only `description` string is omitted). A Python
`default_value` of `None` is `none`. -/
structure ColumnDefinition where
  name : String
  type : ColumnType
  nullable : Bool := true
  symbol_capacity : Option ℕ := none
  symbol_cache : Bool := false
  index : Bool := false
  default_value : Option PyVal := none
deriving DecidableEq, Repr

/-- Python `float(value)`: succeeds on bools, ints, floats (including
`nan` and `±inf`, which `float` passes through unchanged) and parseable
strings; `None`, datetimes and dates raise `TypeError` (modelled as
`none`). -/
def pyFloat (env : PyEnv) : PyVal → Option PyFloat
  | .vBool b => some (.finite (if b then 1 else 0))
  | .vInt n => some (.finite (n : ℚ))
  | .vFloat f => some f
  | .vStr s => env.parseFloatStr s
  | _ => none

/-- Python `int(...)` applied to a finite float: truncation toward zero. -/
def ratTrunc (q : ℚ) : ℤ := if 0 ≤ q then ⌊q⌋ else ⌈q⌉

/-- Python truthiness, as used by `bool(value)` in the `BOOLEAN` branch
(`bool(float('nan'))` and `bool(float('inf'))` are both `True`). -/
def pyTruthy : PyVal → Bool
  | .vNone => false
  | .vBool b => b
  | .vInt n => n ≠ 0
  | .vFloat (.finite q) => q ≠ 0
  | .vFloat .nan => true
  | .vFloat (.inf _) => true
  | .vStr s => s ≠ ""
  | .vDatetime _ => true
  | .vDate _ => true

/-- The exact rational value of a Python number (`bool`, `int`, or
finite `float`); `none` for non-numbers and non-finite floats. -/
def pyRatOf? : PyVal → Option ℚ
  | .vBool b => some (if b then 1 else 0)
  | .vInt n => some (n : ℚ)
  | .vFloat (.finite q) => some q
  | _ => none

/-- Python `==` on runtime values: numbers compare by exact value across
`bool`/`int`/`float`; `nan` compares unequal to everything, itself
included; like-typed non-numbers compare componentwise; everything else
is unequal. -/
def pyEq (a b : PyVal) : Bool :=
  match pyRatOf? a, pyRatOf? b with
  | some x, some y => x = y
  | _, _ =>
    match a, b with
    | .vNone, .vNone => true
    | .vStr s, .vStr t => s = t
    | .vDatetime s, .vDatetime t => s = t
    | .vDate s, .vDate t => s = t
    | .vFloat (.inf s), .vFloat (.inf t) => s = t
    | _, _ => false

/-- `value.lower() in ('true', '1', 'yes', 'on')`. -/
def strToBool (s : String) : Bool :=
  s.toLower = "true" || s.toLower = "1" || s.toLower = "yes" || s.toLower = "on"

/-- Python `str(value)`. -/
def pyStr (env : PyEnv) : PyVal → String
  | .vNone => "None"
  | .vBool b => if b then "True" else "False"
  | .vInt n => toString n
  | .vFloat f => env.reprFloat f
  | .vStr s => s
  | .vDatetime t => env.reprDatetime t
  | .vDate d => env.reprDate d

/-- Error text for the wrapped `ValueError` raised at the bottom of
`validate_value`. -/
def invalidValueMsg (c : ColumnDefinition) : String :=
  "Invalid value for column '" ++ c.name ++ "'"

/-- Error text for `int(float('inf'))`: an `OverflowError`, which the
`except (ValueError, TypeError)` at the bottom of `validate_value` does
not catch — it escapes unwrapped (callers catch plain `Exception`, so
the observable effect here is the same failure). -/
def overflowMsg : String :=
  "cannot convert float infinity to integer"

/-- `ColumnDefinition.validate_value` from `schema_manager.py`: validates
and coerces one raw value according to the column type, raising
(`Except.error`) on null-for-non-nullable or non-coercible input.
Two Python subtleties reflected here: in the `DATE` branch a datetime
is returned unchanged, because `datetime` subclasses `date` and the
`isinstance(value, date)` arm fires first — the `elif
isinstance(value, datetime): return value.date()` below it is dead
code; and in the `LONG`/`INT` branch `int(float('nan'))` raises a
`ValueError` (caught and re-raised wrapped) while `int(float('inf'))`
raises an `OverflowError` (not caught by `except (ValueError,
TypeError)`, so it escapes unwrapped). -/
def ColumnDefinition.validate_value (env : PyEnv) (c : ColumnDefinition)
    (v : PyVal) : Except String PyVal :=
  match v with
  | .vNone =>
      if c.nullable then .ok .vNone
      else .error ("Column '" ++ c.name ++ "' cannot be null")
  | v =>
      match c.type with
      | .timestamp =>
          match v with
          | .vStr s =>
              match env.parseIsoDatetime (s.replace "Z" "+00:00") with
              | some t => .ok (.vDatetime t)
              | none => .error (invalidValueMsg c)
          | .vDatetime t => .ok (.vDatetime t)
          | _ => .error (invalidValueMsg c)
      | .date =>
          match v with
          | .vStr s =>
              match env.parseDateStr s with
              | some d => .ok (.vDate d)
              | none => .error (invalidValueMsg c)
          | .vDate d => .ok (.vDate d)
          | .vDatetime t => .ok (.vDatetime t)
          | _ => .error (invalidValueMsg c)
      | .double =>
          match pyFloat env v with
          | some f => .ok (.vFloat f)
          | none => .error (invalidValueMsg c)
      | .float =>
          match pyFloat env v with
          | some f => .ok (.vFloat f)
          | none => .error (invalidValueMsg c)
      | .long =>
          match pyFloat env v with
          | some (.finite q) => .ok (.vInt (ratTrunc q))
          | some .nan => .error (invalidValueMsg c)
          | some (.inf _) => .error overflowMsg
          | none => .error (invalidValueMsg c)
      | .int =>
          match pyFloat env v with
          | some (.finite q) => .ok (.vInt (ratTrunc q))
          | some .nan => .error (invalidValueMsg c)
          | some (.inf _) => .error overflowMsg
          | none => .error (invalidValueMsg c)
      | .boolean =>
          match v with
          | .vBool b => .ok (.vBool b)
          | .vStr s => .ok (.vBool (strToBool s))
          | v => .ok (.vBool (pyTruthy v))
      | .string => .ok (.vStr (pyStr env v))
      | .symbol => .ok (.vStr (pyStr env v))
      | .binary => .ok v

/-! ## Schema manager: table schemas and record validation -/

/-- `TableSchema` dataclass from `schema_manager.py` (presentation-only
`description`/`version` strings omitted). -/
structure TableSchema where
  table_name : String
  columns : List ColumnDefinition := []
  timestamp_column : String := "timestamp"
  partition_by : String := "DAY"
  wal_enabled : Bool := true
deriving DecidableEq, Repr

/-- A Python record: an insertion-ordered dict from field names to values.
`recGet r n` is `record.get(n)` — the bound value, or `None` when the
field is absent. -/
def recGet (r : List (String × PyVal)) (n : String) : PyVal :=
  match r.find? (fun p => p.1 = n) with
  | some p => p.2
  | none => .vNone

/-- The effective value `validate_record` feeds to a column's
`validate_value`: `value = record.get(column.name)`, then
`if value is None and column.default_value is not None: value =
column.default_value`. -/
def effective_value (r : List (String × PyVal)) (c : ColumnDefinition) : PyVal :=
  match recGet r c.name, c.default_value with
  | .vNone, some d => d
  | v, _ => v

/-- The `for column in self.columns` loop of
`TableSchema.validate_record`: for each column in order, look the field
up, substitute the configured default for an absent/null value, apply
the column's `validate_value`, and bind the result under the column
name; the first failing column aborts with its error. -/
def validate_columns (env : PyEnv) (r : List (String × PyVal)) :
    List ColumnDefinition → Except String (List (String × PyVal))
  | [] => .ok []
  | c :: cs =>
    match c.validate_value env (effective_value r c) with
    | .error e => .error e
    | .ok v' =>
      match validate_columns env r cs with
      | .error e => .error e
      | .ok rest => .ok ((c.name, v') :: rest)

/-- `TableSchema.validate_record` from `schema_manager.py`: validates a
raw record against the schema's column list, returning the dict of
validated values. -/
def TableSchema.validate_record (env : PyEnv) (schema : TableSchema)
    (r : List (String × PyVal)) : Except String (List (String × PyVal)) :=
  validate_columns env r schema.columns

/-! ## QuestDB manager client: `execute_batch_insert` -/

/-- `BatchInsertResult` dataclass from `client.py` (the wall-clock
`execution_time_ms` field is not modelled). -/
structure BatchInsertResult where
  success : Bool
  records_inserted : ℕ
  records_failed : ℕ
  error_message : Option String := none
deriving DecidableEq, Repr

/-- `SchemaManager.get_schema`: lookup of the registered schema for a
table name. -/
def lookupSchema (schemas : List (String × TableSchema)) (table_name : String) :
    Option TableSchema :=
  match schemas.find? (fun p => p.1 = table_name) with
  | some p => some p.2
  | none => none

/-- The per-record validation loop of `execute_batch_insert`: each record
is validated independently; a success increments `records_inserted` and
appends the validated record, a failure increments `records_failed` and
is excluded. Returns `(records_inserted, records_failed, validated_data)`. -/
def validate_batch (env : PyEnv) (schema : TableSchema) :
    List (List (String × PyVal)) → ℕ × ℕ × List (List (String × PyVal))
  | [] => (0, 0, [])
  | r :: rs =>
    let rest := validate_batch env schema rs
    match schema.validate_record env r with
    | .ok v => (rest.1 + 1, rest.2.1, v :: rest.2.2)
    | .error _ => (rest.1, rest.2.1 + 1, rest.2.2)

/-- One chunk's retry loop in `execute_batch_insert`: `for attempt in
range(retry_attempts)` — the chunk commits as soon as one attempt
succeeds; the last failing attempt re-raises. `dbOk i a` is the oracle
for whether the database accepts chunk `i` on attempt `a`; with
`retry_attempts = 0` the loop body never runs, so nothing is raised. -/
def chunk_ok (dbOk : ℕ → ℕ → Bool) (retry_attempts i : ℕ) : Bool :=
  retry_attempts = 0 || (List.range retry_attempts).any (fun a => dbOk i a)

/-- `QuestDBManager.execute_batch_insert` from `client.py`.
Control flow of the source: empty data short-circuits to a success with
zero counts; a missing schema raises, landing in the `except` branch
with the counters still zero; otherwise every record is validated
independently, zero survivors return the explicit
"No valid records to insert" failure (with `records_failed` set to the
whole batch size), and the survivors are inserted chunk by chunk with
per-chunk retries — any exhausted chunk (or `batch_size = 0`, on which
Python's `range` raises) aborts through the `except` branch, returning
the counters accumulated during validation. -/
def execute_batch_insert (env : PyEnv) (schemas : List (String × TableSchema))
    (dbOk : ℕ → ℕ → Bool) (retry_attempts : ℕ) (table_name : String)
    (data : List (List (String × PyVal))) (batch_size : ℕ) : BatchInsertResult :=
  if data = [] then
    { success := true, records_inserted := 0, records_failed := 0 }
  else
    match lookupSchema schemas table_name with
    | none =>
      { success := false, records_inserted := 0, records_failed := 0,
        error_message := some ("No schema found for table '" ++ table_name ++ "'") }
    | some schema =>
      let res := validate_batch env schema data
      let records_inserted := res.1
      let records_failed := res.2.1
      let validated_data := res.2.2
      if validated_data = [] then
        { success := false, records_inserted := 0, records_failed := data.length,
          error_message := some "No valid records to insert" }
      else if batch_size = 0 then
        { success := false, records_inserted := records_inserted,
          records_failed := records_failed,
          error_message := some "range() arg 3 must not be zero" }
      else
        let nChunks := (validated_data.length + batch_size - 1) / batch_size
        if (List.range nChunks).all (fun i => chunk_ok dbOk retry_attempts i) then
          { success := true, records_inserted := records_inserted,
            records_failed := records_failed }
        else
          { success := false, records_inserted := records_inserted,
            records_failed := records_failed,
            error_message := some "insert retries exhausted" }

/-! ## Feed registry: statuses, feed records, lifecycle operations -/

/-- `FeedStatus` enum from `registry.py`. -/
inductive FeedStatus where
  | unknown
  | registered
  | starting
  | running
  | stopping
  | stopped
  | error
  | healthy
  | degraded
  | unhealthy
deriving DecidableEq, Repr

/-- The metrics dictionary passed to `update_feed_status` /
`_calculate_health_score`. Each field is `none` when the key is absent
(`dict.get` then supplies the documented default). `success` records the
truthiness of the `'success'` entry when present. -/
structure FeedMetrics where
  success : Option Bool := none
  success_rate : Option ℚ := none
  execution_time_ms : Option ℚ := none
  error_count : Option ℚ := none
deriving DecidableEq, Repr

/-- `FeedRegistry._calculate_health_score` from `registry.py`: start at
100, subtract the success-rate penalty, the slow-execution penalty and
the capped error penalty, then clamp into `[0, 100]`. -/
def calculate_health_score (m : FeedMetrics) : ℚ :=
  let score : ℚ := 100
  let success_rate := m.success_rate.getD 100
  let score := score - (100 - success_rate) * (1 / 2)
  let execution_time := m.execution_time_ms.getD 0
  let score :=
    if execution_time > 10000 then score - 20
    else if execution_time > 5000 then score - 10
    else score
  let error_count := m.error_count.getD 0
  let score := score - min (error_count * 5) 30
  max 0 (min 100 score)

/-- `FeedInfo` dataclass from `registry.py` (the opaque `feed_instance`
is modelled separately, as the behaviour passed to `start_feed` /
`stop_feed`). Timestamps are rationals (seconds). -/
structure FeedInfo where
  name : String
  category : String
  market_type : String
  priority : String
  status : FeedStatus := .registered
  last_heartbeat : ℚ := 0
  start_time : Option ℚ := none
  error_count : ℕ := 0
  last_error : Option String := none
  metrics : Option FeedMetrics := none
  health_score : ℚ := 100
  consecutive_failures : ℕ := 0
  total_runs : ℕ := 0
  successful_runs : ℕ := 0
deriving DecidableEq, Repr

/-- `FeedRegistry.update_feed_status` from `registry.py`, restricted to
the named feed's record (the function mutates only that record plus the
registry-wide aggregates): sets the caller-supplied status, refreshes
the heartbeat, and — when a (truthy, i.e. non-empty) metrics dict is
supplied — stores it, recomputes the health score, and updates the run
counters: a `success: True` entry resets `consecutive_failures` to 0, a
`success: False` entry increments it. -/
def update_feed_status (f : FeedInfo) (status : FeedStatus)
    (metrics : Option FeedMetrics) (now : ℚ) : FeedInfo :=
  let f := { f with status := status, last_heartbeat := now }
  match metrics with
  | none => f
  | some m =>
    let f := { f with metrics := some m, health_score := calculate_health_score m }
    match m.success with
    | none => f
    | some b =>
      let f := { f with total_runs := f.total_runs + 1 }
      if b then
        { f with successful_runs := f.successful_runs + 1, consecutive_failures := 0 }
      else
        { f with consecutive_failures := f.consecutive_failures + 1 }

/-- `FeedRegistry.record_feed_error` from `registry.py`, restricted to
the named feed's record: bumps the error count, stores the message,
refreshes the heartbeat, increments `consecutive_failures`, and forces
the status to `unhealthy` at 5 consecutive failures or `degraded` at 3. -/
def record_feed_error (f : FeedInfo) (error : String) (now : ℚ) : FeedInfo :=
  let f := { f with
    error_count := f.error_count + 1,
    last_error := some error,
    last_heartbeat := now,
    consecutive_failures := f.consecutive_failures + 1 }
  if f.consecutive_failures ≥ 5 then { f with status := .unhealthy }
  else if f.consecutive_failures ≥ 3 then { f with status := .degraded }
  else f

/-- The registry's `feed_priorities` dict: one name list per priority
class. -/
structure PriorityLists where
  critical : List String := []
  high : List String := []
  medium : List String := []
  low : List String := []
deriving DecidableEq, Repr

/-- Priority classes (the valid keys of `feed_priorities`). -/
inductive Priority where
  | critical
  | high
  | medium
  | low
deriving DecidableEq, Repr

/-- The `feed_priorities` update in `FeedRegistry.register_feed`:
append the feed name to its priority class list unless already present. -/
def register_priority (p : PriorityLists) (name : String) (pr : Priority) :
    PriorityLists :=
  match pr with
  | .critical =>
      if name ∈ p.critical then p else { p with critical := p.critical ++ [name] }
  | .high =>
      if name ∈ p.high then p else { p with high := p.high ++ [name] }
  | .medium =>
      if name ∈ p.medium then p else { p with medium := p.medium ++ [name] }
  | .low =>
      if name ∈ p.low then p else { p with low := p.low ++ [name] }

/-- `FeedRegistry._update_startup_order`: the startup order is the
priority-class lists concatenated critical, high, medium, low. -/
def update_startup_order (p : PriorityLists) : List String :=
  p.critical ++ p.high ++ p.medium ++ p.low

/-- `FeedRegistry._update_startup_order`, second half: `shutdown_order`
is `list(reversed(startup_order))`. -/
def shutdown_order (p : PriorityLists) : List String :=
  (update_startup_order p).reverse

/-- The order in which `FeedRegistry.start_all_feeds` issues start calls:
it iterates `self.startup_order`. -/
def start_all_order (p : PriorityLists) : List String :=
  update_startup_order p

/-- The order in which `FeedRegistry.stop_all_feeds` issues stop calls:
it iterates `reversed(self.shutdown_order)`. -/
def stop_all_order (p : PriorityLists) : List String :=
  (shutdown_order p).reverse

/-- `FeedRegistry.start_feed` from `registry.py`, one feed's record. The
feed instance's `start_standalone()` behaviour is the explicit `beh`
parameter (`Except.error e` models it raising with message `e`). Returns
the `bool` the method returns together with the feed record afterwards;
the `try/except` makes the function total — no exception escapes. -/
def start_feed (feed : Option FeedInfo) (beh : Except String Unit) (now : ℚ) :
    Bool × Option FeedInfo :=
  match feed with
  | none => (false, none)
  | some f =>
    if f.status = .running then (true, some f)
    else
      match beh with
      | .ok _ =>
        (true, some { f with status := .running, start_time := some now })
      | .error e =>
        (false, some { f with
          status := .error, last_error := some e, error_count := f.error_count + 1 })

/-- `FeedRegistry.stop_feed` from `registry.py`, one feed's record. The
instance's behaviour is `none` when it has no `stop` method (the
`hasattr` check), otherwise the result of `stop()`. -/
def stop_feed (feed : Option FeedInfo) (beh : Option (Except String Unit)) :
    Bool × Option FeedInfo :=
  match feed with
  | none => (false, none)
  | some f =>
    if f.status = .stopped then (true, some f)
    else
      match beh with
      | none => (true, some { f with status := .stopped })
      | some (.ok _) => (true, some { f with status := .stopped })
      | some (.error e) =>
        (false, some { f with status := .error, last_error := some e })

/-- `FeedRegistry._perform_health_checks` from `registry.py`, one feed's
record: a feed whose `last_heartbeat` is strictly older than
`now - heartbeat_timeout` is marked `unhealthy` (with a
consecutive-failure bump) — but only if its current status is `running`
or `healthy`. -/
def perform_health_check (f : FeedInfo) (now heartbeat_timeout : ℚ) : FeedInfo :=
  if f.last_heartbeat < now - heartbeat_timeout then
    if f.status = .running ∨ f.status = .healthy then
      { f with
          status := .unhealthy,
          consecutive_failures := f.consecutive_failures + 1 }
    else f
  else f

/-! ## QuestDB health monitor: threshold alerts with cooldown -/

/-- The metric keys checked by
`QuestDBHealthMonitor._check_alert_conditions` (the `checks` list).
The two further keys of the default thresholds dict
(`disk_usage_percent`, `memory_usage_percent`) never appear in `checks`
and can therefore never acquire an active alert; they are omitted. -/
inductive MetricName where
  | response_time_ms
  | connection_pool_usage
  | success_rate
  | consecutive_failures
deriving DecidableEq, Repr

/-- `HealthThreshold` dataclass from `health_monitor.py`
(presentation-only `description` omitted). -/
structure HealthThreshold where
  warning_level : ℚ
  critical_level : ℚ
deriving DecidableEq, Repr

/-- Alert severities (`"warning"` / `"critical"` strings in the source). -/
inductive Severity where
  | warning
  | critical
deriving DecidableEq, Repr

/-- `HealthAlert` dataclass from `health_monitor.py` (the formatted
`message` string is presentation-only and omitted). -/
structure HealthAlert where
  timestamp : ℚ
  alert_type : MetricName
  severity : Severity
  value : ℚ
  threshold : ℚ
  resolved : Bool := false
  resolved_at : Option ℚ := none
deriving DecidableEq, Repr

/-- `QuestDBHealthMonitor._get_default_thresholds`, restricted to the
checked keys. -/
def default_thresholds : MetricName → HealthThreshold
  | .response_time_ms => { warning_level := 1000, critical_level := 5000 }
  | .connection_pool_usage => { warning_level := 70, critical_level := 90 }
  | .success_rate => { warning_level := 95, critical_level := 90 }
  | .consecutive_failures => { warning_level := 3, critical_level := 5 }

/-- The alert-relevant state of a `QuestDBHealthMonitor`:
`active_alerts` (dict keyed by metric name), the thresholds, the
cooldown (minutes), and the consecutive health-check failure counter
with the last-successful-check instant. -/
structure MonitorState where
  active_alerts : MetricName → Option HealthAlert := fun _ => none
  thresholds : MetricName → HealthThreshold := default_thresholds
  alert_cooldown_minutes : ℚ := 5
  consecutive_failures : ℕ := 0
  last_successful_check : ℚ := 0

/-- The metric values of one `HealthMetrics` snapshot that the `checks`
list reads. -/
structure HMetrics where
  response_time_ms : ℚ := 0
  connection_pool_usage : ℚ := 0
  success_rate : ℚ := 100
deriving DecidableEq, Repr

/-- Whether a check uses the reversed comparison (`success_rate`:
lower is worse). -/
def reversed_logic : MetricName → Bool
  | .success_rate => true
  | _ => false

/-- The value the `checks` list supplies for a key: the snapshot's
reading, except `consecutive_failures`, which reads the monitor's own
counter. -/
def check_value (key : MetricName) (cf : ℕ) (m : HMetrics) : ℚ :=
  match key with
  | .response_time_ms => m.response_time_ms
  | .connection_pool_usage => m.connection_pool_usage
  | .success_rate => m.success_rate
  | .consecutive_failures => (cf : ℚ)

/-- The severity computation of `_check_alert_conditions`:
reversed logic compares `value ≤ critical` then `value ≤ warning`;
normal logic compares `value ≥ critical` then `value ≥ warning`.
`none` means no threshold is breached. -/
def severity_for (rev : Bool) (thr : HealthThreshold) (v : ℚ) : Option Severity :=
  if rev then
    if v ≤ thr.critical_level then some .critical
    else if v ≤ thr.warning_level then some .warning
    else none
  else
    if v ≥ thr.critical_level then some .critical
    else if v ≥ thr.warning_level then some .warning
    else none

/-- One iteration of the `for metric_name, value, reversed_logic in
checks` loop in `_check_alert_conditions`, threading the emitted-alert
list and the `active_alerts` dict: an active alert younger than the
cooldown suppresses the check (`continue`); otherwise a breached
threshold appends a fresh alert and stores it under the key. -/
def alert_step (cooldown_minutes now : ℚ) (thr : HealthThreshold)
    (key : MetricName) (v : ℚ) (rev : Bool)
    (acc : List HealthAlert × (MetricName → Option HealthAlert)) :
    List HealthAlert × (MetricName → Option HealthAlert) :=
  let inCooldown : Bool :=
    match acc.2 key with
    | some last_alert => decide (now - last_alert.timestamp < cooldown_minutes * 60)
    | none => false
  if inCooldown then acc
  else
    match severity_for rev thr v with
    | none => acc
    | some sev =>
      let alert : HealthAlert :=
        { timestamp := now, alert_type := key, severity := sev, value := v,
          threshold :=
            if sev = .warning then thr.warning_level else thr.critical_level }
      (acc.1 ++ [alert], fun k => if k = key then some alert else acc.2 k)

/-- `getattr(metrics, metric_name, None)` in `_check_resolved_alerts`:
the `HealthMetrics` dataclass has no `consecutive_failures` attribute,
so that key reads `None` (and its alerts never auto-resolve). -/
def metric_value? (key : MetricName) (m : HMetrics) : Option ℚ :=
  match key with
  | .response_time_ms => some m.response_time_ms
  | .connection_pool_usage => some m.connection_pool_usage
  | .success_rate => some m.success_rate
  | .consecutive_failures => none

/-- The resolution test of `_check_resolved_alerts`: `success_rate`
resolves when the value climbs strictly above the warning level, every
other key when it falls strictly below it; a key whose current value is
unavailable never resolves. -/
def should_resolve (thr : HealthThreshold) (key : MetricName) (m : HMetrics) :
    Bool :=
  match metric_value? key m with
  | none => false
  | some v =>
    if key = .success_rate then v > thr.warning_level else v < thr.warning_level

/-- `QuestDBHealthMonitor._check_resolved_alerts`: every active alert
whose metric has crossed back past the warning threshold is marked
resolved (with the resolution instant) and removed from
`active_alerts`. Returns the resolved alerts and the pruned dict. -/
def check_resolved_alerts (thresholds : MetricName → HealthThreshold)
    (now : ℚ) (m : HMetrics) (active : MetricName → Option HealthAlert) :
    List HealthAlert × (MetricName → Option HealthAlert) :=
  let resolve (key : MetricName) : Option HealthAlert :=
    match active key with
    | none => none
    | some a =>
      if should_resolve (thresholds key) key m then
        some { a with resolved := true, resolved_at := some now }
      else none
  let keys : List MetricName :=
    [.response_time_ms, .connection_pool_usage, .success_rate,
     .consecutive_failures]
  (keys.filterMap resolve,
   fun k => if (resolve k).isSome then none else active k)

/-- The `checks` list built at the top of `_check_alert_conditions`:
`(metric_name, value, reversed_logic)` in source order, here paired with
each metric's threshold (the `metric_name not in self.thresholds` guard
never fires: all four keys are in the default thresholds dict and
`update_thresholds` cannot remove keys). -/
def monitor_checks (s : MonitorState) (m : HMetrics) :
    List (MetricName × ℚ × Bool × HealthThreshold) :=
  [(.response_time_ms, m.response_time_ms, false,
      s.thresholds .response_time_ms),
   (.connection_pool_usage, m.connection_pool_usage, false,
      s.thresholds .connection_pool_usage),
   (.success_rate, m.success_rate, true, s.thresholds .success_rate),
   (.consecutive_failures, (s.consecutive_failures : ℚ), false,
      s.thresholds .consecutive_failures)]

/-- The `for metric_name, value, reversed_logic in checks` loop:
a left fold of `alert_step` over the checks. -/
def run_checks (cd now : ℚ)
    (checks : List (MetricName × ℚ × Bool × HealthThreshold))
    (acc : List HealthAlert × (MetricName → Option HealthAlert)) :
    List HealthAlert × (MetricName → Option HealthAlert) :=
  checks.foldl (fun acc t => alert_step cd now t.2.2.2 t.1 t.2.1 t.2.2.1 acc) acc

/-- `QuestDBHealthMonitor._check_alert_conditions` from
`health_monitor.py`: runs the four checks in source order against the
current `active_alerts` dict, then the resolution sweep. Returns the
newly emitted alerts, the alerts resolved by this update, and the
resulting `active_alerts` dict. -/
def check_alert_conditions (s : MonitorState) (now : ℚ) (m : HMetrics) :
    List HealthAlert × List HealthAlert × (MetricName → Option HealthAlert) :=
  let acc := run_checks s.alert_cooldown_minutes now (monitor_checks s m)
    ([], s.active_alerts)
  let res := check_resolved_alerts s.thresholds now m acc.2
  (acc.1, res.1, res.2)

/-- `QuestDBHealthMonitor.update_status` from `health_monitor.py`,
restricted to its alert-relevant effects: reset or bump the
consecutive-failure counter according to whether the reported status is
`healthy`, then run `_check_alert_conditions`. Returns the emitted
alerts (stored on `current_metrics.alerts`), the resolved alerts, and
the new monitor state. -/
def monitor_update_status (s : MonitorState) (now : ℚ)
    (statusHealthy : Bool) (m : HMetrics) :
    List HealthAlert × List HealthAlert × MonitorState :=
  let s :=
    if statusHealthy then
      { s with consecutive_failures := 0, last_successful_check := now }
    else
      { s with consecutive_failures := s.consecutive_failures + 1 }
  let r := check_alert_conditions s now m
  (r.1, r.2.1, { s with active_alerts := r.2.2 })

/-! ## Concrete instances used to evaluate the model -/

/-- C4 scenario: register feeds A (critical), B (medium), C (critical). -/
def regABC : PriorityLists :=
  register_priority
    (register_priority (register_priority {} "A" .critical) "B" .medium)
    "C" .critical

/-- A freshly registered feed record. -/
def feedA : FeedInfo :=
  { name := "A", category := "cat", market_type := "stock_market",
    priority := "medium" }

/-- A running feed that has already failed four times in a row. -/
def runningFeedCf4 : FeedInfo :=
  { feedA with status := .running, consecutive_failures := 4 }

/-- A metrics dict reporting one failed run (`{'success': False}`). -/
def failingMetrics : FeedMetrics := { success := some false }

/-- A degraded feed whose heartbeat is stale. -/
def staleDegradedFeed : FeedInfo :=
  { feedA with status := .degraded, last_heartbeat := 0 }

/-- A running feed whose heartbeat is stale. -/
def staleRunningFeed : FeedInfo :=
  { feedA with status := .running, last_heartbeat := 0 }

/-- A one-record batch. -/
def oneRecord : List (List (String × PyVal)) := [[("x", .vInt 1)]]

/-- A STRING column named x. -/
def colX : ColumnDefinition := { name := "x", type := .string }

/-- A BOOLEAN column named b. -/
def colB : ColumnDefinition := { name := "b", type := .boolean }

/-- The spec scenario's `price DOUBLE` column. -/
def colPrice : ColumnDefinition := { name := "price", type := .double }

/-- A schema for table t with the single column x. -/
def schemaT : TableSchema := { table_name := "t", columns := [colX] }

/-- A three-column schema: x STRING, y DOUBLE (nullable, no default),
z LONG with default 7. -/
def schemaXYZ : TableSchema :=
  { table_name := "t3",
    columns :=
      [colX,
       { name := "y", type := .double },
       { name := "z", type := .long, default_value := some (.vInt 7) }] }

/-- A record supplying x, an unrelated extra field, and neither y nor z. -/
def recordX : List (String × PyVal) := [("x", .vStr "a"), ("extra", .vInt 1)]

/-- An active warning alert for `response_time_ms` raised at instant 0. -/
def alertA : HealthAlert :=
  { timestamp := 0, alert_type := .response_time_ms, severity := .warning,
    value := 1500, threshold := 1000 }

/-- A monitor holding `alertA` as its only active alert. -/
def monS0 : MonitorState :=
  { active_alerts := fun k =>
      if k = .response_time_ms then some alertA else none }

/-- A metrics snapshot whose response time still breaches the warning
threshold. -/
def hmBreaching : HMetrics := { response_time_ms := 1500 }

/-- A monitor in its initial configuration: no active alerts, default
thresholds, 5-minute cooldown. -/
def monInit : MonitorState := {}

/-- The warning alert the C7 scenario's first update creates. -/
def alert92 : HealthAlert :=
  { timestamp := 0, alert_type := .success_rate, severity := .warning,
    value := 92, threshold := 95 }

/-- C7 first update: success rate 92 (below warning 95, above critical
90). -/
def hmRate92 : HMetrics := { success_rate := 92 }

/-- C7 second update: success rate 96 (back above warning 95). -/
def hmRate96 : HMetrics := { success_rate := 96 }

/-! ## Theorems -/

/-- C3: for every metrics dictionary — with arbitrary, possibly extreme,
`success_rate`, `execution_time_ms` and `error_count` values — the
per-feed health score equals 100 minus `0.5 * (100 - successRatePct)`,
minus 20 if the last execution exceeded 10 seconds else 10 if it
exceeded 5 seconds, minus `min(5 * errorCount, 30)`, clamped to
`[0, 100]`; and the result always lies in `[0, 100]`. -/
theorem health_score_formula_and_clamped (m : FeedMetrics) :
    calculate_health_score m =
      max 0 (min 100
        (100 - (1 / 2) * (100 - m.success_rate.getD 100)
          - (if m.execution_time_ms.getD 0 > 10000 then (20 : ℚ)
             else if m.execution_time_ms.getD 0 > 5000 then 10 else 0)
          - min (5 * m.error_count.getD 0) 30))
    ∧ 0 ≤ calculate_health_score m ∧ calculate_health_score m ≤ 100 := by
  refine ⟨?_, ?_, ?_⟩
  · simp only [calculate_health_score]
    rw [mul_comm ((FeedMetrics.error_count m).getD 0) (5 : ℚ)]
    congr 2
    split_ifs <;> ring
  · simp only [calculate_health_score]
    exact le_max_left 0 _
  · simp only [calculate_health_score]
    exact max_le (by norm_num) (min_le_left _ _)

/-- C4 (code bug): `start_all_feeds` does issue starts in priority-class
order — with A (critical), B (medium), C (critical) registered, the
start order is A, C, B — but `stop_all_feeds` iterates
`reversed(self.shutdown_order)` where `shutdown_order` is already
`reversed(startup_order)`, so the double reversal makes the stop order
equal to the startup order for every registry, not its reverse: on the
scenario it is A, C, B instead of the documented B, C, A. -/
theorem stop_order_equals_start_order :
    (∀ p : PriorityLists, stop_all_order p = start_all_order p) ∧
    start_all_order regABC = ["A", "C", "B"] ∧
    stop_all_order regABC = ["A", "C", "B"] ∧
    stop_all_order regABC ≠ (start_all_order regABC).reverse := by
  refine ⟨?_, by decide, by decide, by decide⟩
  intro p
  simp [stop_all_order, shutdown_order, start_all_order]

/-- C5: `start_feed` and `stop_feed` absorb an exception raised by the
feed instance: the result is `false`, the feed's status becomes `error`
and the message is recorded (`start_feed` also increments the error
count); no exception escapes (the model functions are total). The
hypotheses exclude the statuses on which the source short-circuits
before calling the instance. -/
theorem start_stop_feed_absorb_errors (f : FeedInfo) (e : String) (now : ℚ)
    (hs : f.status ≠ .running) (ht : f.status ≠ .stopped) :
    start_feed (some f) (.error e) now =
      (false, some { f with
                       status := .error,
                       last_error := some e,
                       error_count := f.error_count + 1 }) ∧
    stop_feed (some f) (some (.error e)) =
      (false, some { f with status := .error, last_error := some e }) := by
  constructor
  · simp [start_feed, hs]
  · simp [stop_feed, ht]

/-- C5 witness: a freshly registered feed whose instance raises on start
and on stop. -/
theorem start_stop_feed_absorb_errors_witness :
    start_feed (some feedA) (.error "boom") 0 =
      (false, some { feedA with
                       status := .error,
                       last_error := some "boom",
                       error_count := feedA.error_count + 1 }) ∧
    stop_feed (some feedA) (some (.error "boom")) =
      (false, some { feedA with status := .error, last_error := some "boom" }) :=
  start_stop_feed_absorb_errors feedA "boom" 0 (by decide) (by decide)

/-- C9 counterexample: a feed in the active status `degraded` whose
heartbeat is stale is left `degraded` by the background health check —
the source only promotes `running` and `healthy` feeds to `unhealthy` —
refuting the claim's "regardless of which active status". -/
theorem heartbeat_check_skips_degraded :
    staleDegradedFeed.last_heartbeat < 1000 - 300 ∧
    (perform_health_check staleDegradedFeed 1000 300).status = .degraded ∧
    (perform_health_check staleDegradedFeed 1000 300).status ≠ .unhealthy := by
  have hlt : staleDegradedFeed.last_heartbeat < 1000 - 300 := by
    norm_num [staleDegradedFeed, feedA]
  refine ⟨hlt, ?_, ?_⟩ <;>
    simp [perform_health_check, hlt, staleDegradedFeed, feedA]

/-- C9 (amended): a registered feed whose last heartbeat is strictly
older than `now` minus the heartbeat timeout is marked `unhealthy` by a
run of the background health check (with a consecutive-failure bump),
provided it was in `running` or `healthy` status beforehand. -/
theorem heartbeat_timeout_marks_unhealthy (f : FeedInfo) (now timeout : ℚ)
    (hstale : f.last_heartbeat < now - timeout)
    (hactive : f.status = .running ∨ f.status = .healthy) :
    (perform_health_check f now timeout).status = .unhealthy ∧
    (perform_health_check f now timeout).consecutive_failures
      = f.consecutive_failures + 1 := by
  simp [perform_health_check, hstale, hactive]

/-- C9 witness: a stale running feed is marked unhealthy. -/
theorem heartbeat_timeout_marks_unhealthy_witness :
    (perform_health_check staleRunningFeed 1000 300).status = .unhealthy ∧
    (perform_health_check staleRunningFeed 1000 300).consecutive_failures
      = staleRunningFeed.consecutive_failures + 1 :=
  heartbeat_timeout_marks_unhealthy staleRunningFeed 1000 300
    (by norm_num [staleRunningFeed, feedA]) (Or.inl (by decide))

/-- C2 counterexample: a running feed with four consecutive failures
receives a fifth failure through `update_feed_status` (status argument
`running`, metrics `{'success': False}`): the consecutive-failure count
reaches 5, yet the status stays `running` — `update_feed_status` never
applies the ≥5 → `unhealthy` / ≥3 → `degraded` forcing; only
`record_feed_error` does. -/
theorem update_feed_status_no_threshold_forcing :
    (update_feed_status runningFeedCf4 .running (some failingMetrics) 0).consecutive_failures = 5 ∧
    (update_feed_status runningFeedCf4 .running (some failingMetrics) 0).status = .running ∧
    (update_feed_status runningFeedCf4 .running (some failingMetrics) 0).status ≠ .unhealthy := by
  decide

/-- C2 (amended): a failure reported through either path increments the
consecutive-failure count and any reported success resets it to 0;
after `record_feed_error` a count ≥ 5 forces `unhealthy` and a count in
`[3, 5)` forces `degraded`; `update_feed_status`, however, leaves the
status exactly as the caller-supplied status argument regardless of the
count. -/
theorem consecutive_failure_accounting (f : FeedInfo) (e : String)
    (st : FeedStatus) (m : FeedMetrics) (now : ℚ) :
    (record_feed_error f e now).consecutive_failures
        = f.consecutive_failures + 1 ∧
    (f.consecutive_failures + 1 ≥ 5 →
      (record_feed_error f e now).status = .unhealthy) ∧
    (f.consecutive_failures + 1 ≥ 3 → f.consecutive_failures + 1 < 5 →
      (record_feed_error f e now).status = .degraded) ∧
    (m.success = some false →
      (update_feed_status f st (some m) now).consecutive_failures
          = f.consecutive_failures + 1 ∧
      (update_feed_status f st (some m) now).status = st) ∧
    (m.success = some true →
      (update_feed_status f st (some m) now).consecutive_failures = 0 ∧
      (update_feed_status f st (some m) now).status = st) := by
  refine ⟨?_, ?_, ?_, ?_, ?_⟩
  · simp only [record_feed_error]
    split_ifs <;> rfl
  · intro h5
    simp only [record_feed_error]
    split_ifs <;> first | rfl | omega
  · intro h3 h5
    simp only [record_feed_error]
    split_ifs <;> first | rfl | omega
  · intro hf
    simp [update_feed_status, hf]
  · intro hs
    simp [update_feed_status, hs]

/-- C2 witness: at four prior consecutive failures, a
`record_feed_error` forces `unhealthy`, while the same failure reported
through `update_feed_status` leaves the supplied status; a success
resets the counter. -/
theorem consecutive_failure_accounting_witness :
    (record_feed_error runningFeedCf4 "boom" 0).status = .unhealthy ∧
    (update_feed_status runningFeedCf4 .running (some failingMetrics) 0).consecutive_failures
        = runningFeedCf4.consecutive_failures + 1 ∧
    (update_feed_status runningFeedCf4 .running
        (some { failingMetrics with success := some true }) 0).consecutive_failures = 0 := by
  have h := consecutive_failure_accounting runningFeedCf4 "boom" .running
    failingMetrics 0
  have h' := consecutive_failure_accounting runningFeedCf4 "boom" .running
    { failingMetrics with success := some true } 0
  exact ⟨h.2.1 (by decide), (h.2.2.2.1 (by decide)).1, (h'.2.2.2.2 (by decide)).1⟩

/-- The validation loop's counters always account for every record:
inserted plus failed equals the batch length. -/
theorem validate_batch_counts (env : PyEnv) (sch : TableSchema) :
    ∀ data : List (List (String × PyVal)),
      (validate_batch env sch data).1 + (validate_batch env sch data).2.1
        = data.length := by
  intro data
  induction data with
  | nil => rfl
  | cons r rs ih =>
    cases h : sch.validate_record env r <;>
      simp only [validate_batch, h, List.length_cons] <;> omega

/-- The validation loop keeps exactly the validated records: the
survivor list length equals the inserted counter. -/
theorem validate_batch_survivors (env : PyEnv) (sch : TableSchema) :
    ∀ data : List (List (String × PyVal)),
      (validate_batch env sch data).2.2.length = (validate_batch env sch data).1 := by
  intro data
  induction data with
  | nil => rfl
  | cons r rs ih =>
    cases h : sch.validate_record env r <;>
      simp only [validate_batch, h, List.length_cons] <;> omega

/-- If the validation loop accepted no record, every record of the batch
failed schema validation. -/
theorem validate_batch_all_failed (env : PyEnv) (sch : TableSchema) :
    ∀ data : List (List (String × PyVal)),
      (validate_batch env sch data).1 = 0 →
      ∀ r ∈ data, ∃ e, sch.validate_record env r = .error e := by
  intro data
  induction data with
  | nil => intro _ r hr; cases hr
  | cons r rs ih =>
    intro h0 r' hr'
    cases h : sch.validate_record env r with
    | ok v =>
      simp only [validate_batch, h] at h0
      simp at h0
    | error e =>
      simp only [validate_batch, h] at h0
      rcases List.mem_cons.mp hr' with rfl | hmem
      · exact ⟨e, h⟩
      · exact ih h0 r' hmem

/-- C1 counterexample: a one-record batch against a table with no
registered schema — `execute_batch_insert` raises at the fail-fast
schema lookup, before the validation loop, and the `except` branch
returns the counters still at zero: `records_inserted + records_failed
= 0 ≠ 1 = N`, and `records_inserted = 0` although no record failed
schema validation. -/
theorem execute_batch_insert_no_schema_zero_counts :
    (execute_batch_insert defaultPyEnv [] (fun _ _ => true) 3 "t" oneRecord 1000).records_inserted = 0 ∧
    (execute_batch_insert defaultPyEnv [] (fun _ _ => true) 3 "t" oneRecord 1000).records_failed = 0 ∧
    oneRecord.length = 1 ∧
    (execute_batch_insert defaultPyEnv [] (fun _ _ => true) 3 "t" oneRecord 1000).records_inserted
      + (execute_batch_insert defaultPyEnv [] (fun _ _ => true) 3 "t" oneRecord 1000).records_failed
      ≠ oneRecord.length := by
  decide

/-- C1 (amended): for every call to `execute_batch_insert` with a
non-empty batch of N records *whose table has a registered schema*, the
result satisfies `records_inserted + records_failed = N`, and
`records_inserted = 0` only if every one of the N records failed schema
validation. (Without a registered schema the call fails before the
validation loop with both counters zero.) -/
theorem execute_batch_insert_conservation (env : PyEnv)
    (schemas : List (String × TableSchema)) (dbOk : ℕ → ℕ → Bool)
    (retry : ℕ) (tbl : String) (data : List (List (String × PyVal)))
    (bs : ℕ) (sch : TableSchema)
    (hne : data ≠ []) (hsch : lookupSchema schemas tbl = some sch) :
    (execute_batch_insert env schemas dbOk retry tbl data bs).records_inserted
      + (execute_batch_insert env schemas dbOk retry tbl data bs).records_failed
      = data.length ∧
    ((execute_batch_insert env schemas dbOk retry tbl data bs).records_inserted = 0 →
      ∀ r ∈ data, ∃ e, sch.validate_record env r = .error e) := by
  have hc := validate_batch_counts env sch data
  have hs := validate_batch_survivors env sch data
  have hf := validate_batch_all_failed env sch data
  simp only [execute_batch_insert, if_neg hne, hsch]
  split_ifs with hnil hbz hall
  · refine ⟨by simp, fun _ => ?_⟩
    have h1 : (validate_batch env sch data).1 = 0 := by
      rw [← hs, hnil]; rfl
    exact hf h1
  · exact ⟨hc, fun h0 => hf h0⟩
  · exact ⟨hc, fun h0 => hf h0⟩
  · exact ⟨hc, fun h0 => hf h0⟩

/-- C1 witness: a one-record batch against a registered schema. -/
theorem execute_batch_insert_conservation_witness :
    (execute_batch_insert defaultPyEnv [("t", schemaT)] (fun _ _ => true) 3 "t" oneRecord 1000).records_inserted
      + (execute_batch_insert defaultPyEnv [("t", schemaT)] (fun _ _ => true) 3 "t" oneRecord 1000).records_failed
      = oneRecord.length :=
  (execute_batch_insert_conservation defaultPyEnv [("t", schemaT)]
    (fun _ _ => true) 3 "t" oneRecord 1000 schemaT (by decide) (by decide)).1

/-- `int(float(n))` is the identity on integers. -/
theorem ratTrunc_intCast (n : ℤ) : ratTrunc (n : ℚ) = n := by
  unfold ratTrunc
  split_ifs <;> simp

/-- Every value `validate_value` accepts is a fixed point: re-validating
the returned value succeeds and returns it unchanged (structural
identity of the model terms, i.e. the same Python object shape). -/
theorem validate_value_fixed_point (env : PyEnv) (c : ColumnDefinition)
    (v v' : PyVal) (h : c.validate_value env v = .ok v') :
    c.validate_value env v' = .ok v' := by
  cases v with
  | vNone =>
    by_cases hn : c.nullable <;>
      simp only [ColumnDefinition.validate_value, hn, if_true, if_false] at h ⊢
    · cases h
      simp
    · cases h
  | vBool b =>
    cases hty : c.type <;>
      simp only [ColumnDefinition.validate_value, hty, pyFloat] at h <;>
      cases h <;>
      simp [ColumnDefinition.validate_value, hty, pyFloat, ratTrunc_intCast, pyStr]
  | vInt n =>
    cases hty : c.type <;>
      simp only [ColumnDefinition.validate_value, hty, pyFloat] at h <;>
      cases h <;>
      simp [ColumnDefinition.validate_value, hty, pyFloat, ratTrunc_intCast, pyStr]
  | vFloat f =>
    cases f with
    | finite q =>
      cases hty : c.type <;>
        simp only [ColumnDefinition.validate_value, hty, pyFloat] at h <;>
        cases h <;>
        simp [ColumnDefinition.validate_value, hty, pyFloat, ratTrunc_intCast,
          pyStr]
    | nan =>
      cases hty : c.type <;>
        simp only [ColumnDefinition.validate_value, hty, pyFloat] at h <;>
        cases h <;>
        simp [ColumnDefinition.validate_value, hty, pyFloat, pyStr, pyTruthy]
    | inf ng =>
      cases hty : c.type <;>
        simp only [ColumnDefinition.validate_value, hty, pyFloat] at h <;>
        cases h <;>
        simp [ColumnDefinition.validate_value, hty, pyFloat, pyStr, pyTruthy]
  | vStr s =>
    cases hty : c.type <;>
      simp only [ColumnDefinition.validate_value, hty, pyFloat] at h
    case timestamp =>
      cases hp : env.parseIsoDatetime (s.replace "Z" "+00:00") <;>
        simp only [hp] at h <;> cases h
      simp [ColumnDefinition.validate_value, hty]
    case date =>
      cases hp : env.parseDateStr s <;> simp only [hp] at h <;> cases h
      simp [ColumnDefinition.validate_value, hty]
    case double =>
      cases hp : env.parseFloatStr s <;> simp only [hp] at h <;> cases h
      simp [ColumnDefinition.validate_value, hty, pyFloat]
    case float =>
      cases hp : env.parseFloatStr s <;> simp only [hp] at h <;> cases h
      simp [ColumnDefinition.validate_value, hty, pyFloat]
    case long =>
      cases hp : env.parseFloatStr s with
      | none =>
        simp only [hp] at h
        exact Except.noConfusion h
      | some f =>
        cases f <;> simp only [hp] at h <;> cases h <;>
          simp [ColumnDefinition.validate_value, hty, pyFloat, ratTrunc_intCast]
    case int =>
      cases hp : env.parseFloatStr s with
      | none =>
        simp only [hp] at h
        exact Except.noConfusion h
      | some f =>
        cases f <;> simp only [hp] at h <;> cases h <;>
          simp [ColumnDefinition.validate_value, hty, pyFloat, ratTrunc_intCast]
    case boolean =>
      cases h
      simp [ColumnDefinition.validate_value, hty]
    case string =>
      cases h
      simp [ColumnDefinition.validate_value, hty, pyStr]
    case symbol =>
      cases h
      simp [ColumnDefinition.validate_value, hty, pyStr]
    case binary =>
      cases h
      simp [ColumnDefinition.validate_value, hty]
  | vDatetime t =>
    cases hty : c.type <;>
      simp only [ColumnDefinition.validate_value, hty, pyFloat] at h <;>
      cases h <;>
      simp [ColumnDefinition.validate_value, hty, pyFloat, pyStr, pyTruthy]
  | vDate d =>
    cases hty : c.type <;>
      simp only [ColumnDefinition.validate_value, hty, pyFloat] at h <;>
      cases h <;>
      simp [ColumnDefinition.validate_value, hty, pyFloat, pyStr, pyTruthy]

/-- Python `==` is reflexive on every runtime value except a NaN float. -/
theorem pyEq_refl_of_ne_nan (v : PyVal) (h : v ≠ .vFloat .nan) :
    pyEq v v = true := by
  cases v with
  | vNone => rfl
  | vBool b => simp [pyEq, pyRatOf?]
  | vInt n => simp [pyEq, pyRatOf?]
  | vFloat f =>
    cases f with
    | finite q => simp [pyEq, pyRatOf?]
    | nan => exact absurd rfl h
    | inf ng => simp [pyEq, pyRatOf?]
  | vStr s => simp [pyEq, pyRatOf?]
  | vDatetime t => simp [pyEq, pyRatOf?]
  | vDate d => simp [pyEq, pyRatOf?]

/-- C8 counterexample: a DOUBLE column accepts a raw `float('nan')` —
`float()` passes it through, raising nothing — and returns it;
re-validation returns the same NaN, but Python `==` on the two results
is `False` (IEEE NaN is unequal to itself), refuting
`validate_value(validate_value(v)) == validate_value(v)` at `v = nan`. -/
theorem validate_value_nan_refutes_eq :
    (colPrice.validate_value defaultPyEnv (.vFloat .nan)
        = .ok (.vFloat .nan)) ∧
    pyEq (.vFloat .nan) (.vFloat .nan) = false :=
  ⟨rfl, rfl⟩

/-- C8 (amended): for every column definition of any column type and
every raw value `validate_value` accepts (returning `v'`),
re-validating returns the identical value — `validate_value` is
idempotent as a function — and hence
`validate_value(validate_value(v)) == validate_value(v)` holds under
Python equality whenever the accepted value is not a NaN float; for a
NaN result the `==` equation fails, since NaN compares unequal to
itself. -/
theorem validate_value_idempotent (env : PyEnv) (c : ColumnDefinition)
    (v v' : PyVal) (h : c.validate_value env v = .ok v') :
    c.validate_value env v' = .ok v' ∧
    (v' ≠ .vFloat .nan → pyEq v' v' = true) :=
  ⟨validate_value_fixed_point env c v v' h,
   fun hn => pyEq_refl_of_ne_nan v' hn⟩

/-- C8 witness: a LONG column accepting the float 2.5 truncates it to
the integer 2, which re-validates to itself and is `==`-equal to
itself. -/
theorem validate_value_idempotent_witness :
    (ColumnDefinition.validate_value defaultPyEnv
        { name := "n", type := .long } (.vInt 2) = .ok (.vInt 2)) ∧
    pyEq (.vInt 2) (.vInt 2) = true := by
  have h := validate_value_idempotent defaultPyEnv { name := "n", type := .long }
    (.vFloat (.finite (5 / 2))) (.vInt 2)
    (by simp [ColumnDefinition.validate_value, pyFloat, ratTrunc]; norm_num)
  exact ⟨h.1, h.2 (by simp)⟩

/-- A successful column walk binds exactly the column names, in order. -/
theorem validate_columns_keys (env : PyEnv) (r : List (String × PyVal)) :
    ∀ (cols : List ColumnDefinition) (out : List (String × PyVal)),
      validate_columns env r cols = .ok out →
      out.map Prod.fst = cols.map ColumnDefinition.name := by
  intro cols
  induction cols with
  | nil => intro out h; cases h; rfl
  | cons c cs ih =>
    intro out h
    simp only [validate_columns] at h
    cases hv : c.validate_value env (effective_value r c) with
    | error e => simp only [hv] at h; exact Except.noConfusion h
    | ok v0 =>
      simp only [hv] at h
      cases hrest : validate_columns env r cs with
      | error e => simp only [hrest] at h; exact Except.noConfusion h
      | ok rest =>
        simp only [hrest] at h
        cases h
        simp [ih rest hrest]

/-- The column walk reads the record only at the column names: two
records agreeing on every column name validate identically. -/
theorem validate_columns_congr (env : PyEnv) (r r' : List (String × PyVal)) :
    ∀ cols : List ColumnDefinition,
      (∀ c ∈ cols, recGet r' c.name = recGet r c.name) →
      validate_columns env r' cols = validate_columns env r cols := by
  intro cols
  induction cols with
  | nil => intro _; rfl
  | cons c cs ih =>
    intro hagree
    have hc : recGet r' c.name = recGet r c.name := hagree c (by simp)
    have heff : effective_value r' c = effective_value r c := by
      simp [effective_value, hc]
    simp only [validate_columns, heff, ih fun d hd => hagree d (by simp [hd])]

/-- In a successful column walk under unique column names, the output
binds each column to the validation of its effective value. -/
theorem validate_columns_lookup (env : PyEnv) (r : List (String × PyVal)) :
    ∀ (cols : List ColumnDefinition) (out : List (String × PyVal))
      (c : ColumnDefinition),
      (cols.map ColumnDefinition.name).Nodup →
      validate_columns env r cols = .ok out →
      c ∈ cols →
      c.validate_value env (effective_value r c) = .ok (recGet out c.name) := by
  intro cols
  induction cols with
  | nil => intro out c _ _ hc; cases hc
  | cons c0 cs ih =>
    intro out c hnd h hc
    simp only [validate_columns] at h
    cases hv : c0.validate_value env (effective_value r c0) with
    | error e => simp only [hv] at h; exact Except.noConfusion h
    | ok v0 =>
      simp only [hv] at h
      cases hrest : validate_columns env r cs with
      | error e => simp only [hrest] at h; exact Except.noConfusion h
      | ok rest =>
        simp only [hrest] at h
        cases h
        rcases List.mem_cons.mp hc with rfl | hmem
        · simpa [recGet] using hv
        · have hne : c0.name ≠ c.name := by
            intro heq
            have hin : c0.name ∈ cs.map ColumnDefinition.name :=
              heq ▸ List.mem_map_of_mem ColumnDefinition.name hmem
            exact (List.nodup_cons.mp hnd).1 hin
          have hrec : recGet ((c0.name, v0) :: rest) c.name = recGet rest c.name := by
            simp [recGet, hne]
          rw [hrec]
          exact ih rest c (List.nodup_cons.mp hnd).2 hrest hmem

/-- C10: for every schema (with the unique column names the schema
validator enforces) and every raw record, a successful
`validate_record` returns a dict whose keys are exactly the schema's
column names; input fields not named by any column are dropped (the
result depends only on the record's values at column names); an
absent/null field whose column has a configured default is replaced by
that default (the output binds the column to the validated default);
and an absent field of a nullable column without a default is mapped to
null. -/
theorem validate_record_shape (env : PyEnv) (schema : TableSchema)
    (r out : List (String × PyVal))
    (hnd : (schema.columns.map ColumnDefinition.name).Nodup)
    (h : schema.validate_record env r = .ok out) :
    out.map Prod.fst = schema.columns.map ColumnDefinition.name ∧
    (∀ r', (∀ c ∈ schema.columns, recGet r' c.name = recGet r c.name) →
      schema.validate_record env r' = .ok out) ∧
    (∀ c ∈ schema.columns, recGet r c.name = .vNone →
      (∀ d, c.default_value = some d →
        c.validate_value env d = .ok (recGet out c.name)) ∧
      (c.default_value = none → c.nullable = true →
        recGet out c.name = .vNone)) := by
  refine ⟨validate_columns_keys env r schema.columns out h, ?_, ?_⟩
  · intro r' hagree
    calc schema.validate_record env r'
        = validate_columns env r' schema.columns := rfl
      _ = validate_columns env r schema.columns :=
          validate_columns_congr env r r' schema.columns hagree
      _ = .ok out := h
  · intro c hc habsent
    have hval := validate_columns_lookup env r schema.columns out c hnd h hc
    constructor
    · intro d hd
      have heff : effective_value r c = d := by
        simp [effective_value, habsent, hd]
      rwa [heff] at hval
    · intro hnodef hnull
      have heff : effective_value r c = .vNone := by
        simp [effective_value, habsent, hnodef]
      rw [heff] at hval
      simp only [ColumnDefinition.validate_value, hnull, if_true] at hval
      exact (Except.ok.inj hval).symm

/-- C10 witness: the schema x STRING, y DOUBLE (nullable, no default),
z LONG (default 7) applied to a record supplying only x plus an
unrelated extra field. -/
theorem validate_record_shape_witness :
    (schemaXYZ.validate_record defaultPyEnv recordX
        = Except.ok [("x", PyVal.vStr "a"), ("y", PyVal.vNone),
                     ("z", PyVal.vInt 7)]) ∧
    ([("x", PyVal.vStr "a"), ("y", PyVal.vNone), ("z", PyVal.vInt 7)].map
        Prod.fst
      = schemaXYZ.columns.map ColumnDefinition.name) := by
  have htr : ratTrunc (7 : ℚ) = 7 := by
    have h7 : ((7 : ℤ) : ℚ) = (7 : ℚ) := by norm_num
    simpa [h7] using ratTrunc_intCast 7
  have hok : schemaXYZ.validate_record defaultPyEnv recordX
      = Except.ok [("x", PyVal.vStr "a"), ("y", PyVal.vNone),
                   ("z", PyVal.vInt 7)] := by
    simp [TableSchema.validate_record, validate_columns, schemaXYZ, colX,
      recordX, effective_value, recGet, ColumnDefinition.validate_value,
      pyStr, pyFloat, htr, List.find?]
  have hnd : (schemaXYZ.columns.map ColumnDefinition.name).Nodup := by
    simp [schemaXYZ, colX]
  exact ⟨hok,
    (validate_record_shape defaultPyEnv schemaXYZ recordX
      [("x", PyVal.vStr "a"), ("y", PyVal.vNone), ("z", PyVal.vInt 7)]
      hnd hok).1⟩

/-- One check never removes previously emitted alerts. -/
theorem alert_step_mono (cd now : ℚ) (thr : HealthThreshold)
    (key : MetricName) (v : ℚ) (rev : Bool)
    (acc : List HealthAlert × (MetricName → Option HealthAlert))
    (b : HealthAlert) (hb : b ∈ acc.1) :
    b ∈ (alert_step cd now thr key v rev acc).1 := by
  simp only [alert_step]
  split
  · exact hb
  · split
    · exact hb
    · simp [hb]

/-- Every alert emitted by one check either predates the check or
carries the check's key and the current instant. -/
theorem alert_step_mem (cd now : ℚ) (thr : HealthThreshold)
    (key : MetricName) (v : ℚ) (rev : Bool)
    (acc : List HealthAlert × (MetricName → Option HealthAlert))
    (b : HealthAlert) (hb : b ∈ (alert_step cd now thr key v rev acc).1) :
    b ∈ acc.1 ∨ (b.alert_type = key ∧ b.timestamp = now) := by
  simp only [alert_step] at hb
  split at hb
  · exact Or.inl hb
  · split at hb
    · exact Or.inl hb
    · rcases List.mem_append.mp hb with h | h
      · exact Or.inl h
      · simp only [List.mem_singleton] at h
        subst h
        exact Or.inr ⟨rfl, rfl⟩

/-- A check leaves every other key's active-alert entry unchanged. -/
theorem alert_step_map_ne (cd now : ℚ) (thr : HealthThreshold)
    (key : MetricName) (v : ℚ) (rev : Bool)
    (acc : List HealthAlert × (MetricName → Option HealthAlert))
    (k : MetricName) (hk : k ≠ key) :
    (alert_step cd now thr key v rev acc).2 k = acc.2 k := by
  simp only [alert_step]
  split
  · rfl
  · split
    · rfl
    · simp [hk]

/-- A check whose key holds an active alert younger than the cooldown is
skipped entirely (`continue`). -/
theorem alert_step_skip (cd now : ℚ) (thr : HealthThreshold)
    (key : MetricName) (v : ℚ) (rev : Bool)
    (acc : List HealthAlert × (MetricName → Option HealthAlert))
    (a : HealthAlert) (ha : acc.2 key = some a)
    (hcd : now - a.timestamp < cd * 60) :
    alert_step cd now thr key v rev acc = acc := by
  simp only [alert_step, ha]
  simp [hcd]

/-- A check whose key is out of cooldown and whose value breaches a
threshold emits a fresh alert for the key, stamped with the current
instant. -/
theorem alert_step_fire (cd now : ℚ) (thr : HealthThreshold)
    (key : MetricName) (v : ℚ) (rev : Bool)
    (acc : List HealthAlert × (MetricName → Option HealthAlert))
    (a : HealthAlert) (sev : Severity) (ha : acc.2 key = some a)
    (hcd : ¬(now - a.timestamp < cd * 60))
    (hsev : severity_for rev thr v = some sev) :
    (alert_step cd now thr key v rev acc).1
      = acc.1 ++ [{ timestamp := now, alert_type := key, severity := sev,
                    value := v,
                    threshold := if sev = .warning then thr.warning_level
                                 else thr.critical_level }] := by
  simp only [alert_step, ha, hsev]
  simp [hcd]

/-- A key holding an active alert younger than the cooldown acquires no
new emitted alert anywhere in the checks loop. -/
theorem run_checks_suppress (cd now : ℚ) (key : MetricName) (a : HealthAlert)
    (hcd : now - a.timestamp < cd * 60) :
    ∀ (checks : List (MetricName × ℚ × Bool × HealthThreshold))
      (acc : List HealthAlert × (MetricName → Option HealthAlert)),
      acc.2 key = some a →
      ∀ b ∈ (run_checks cd now checks acc).1, b ∈ acc.1 ∨ b.alert_type ≠ key := by
  intro checks
  induction checks with
  | nil => intro acc _ b hb; exact Or.inl hb
  | cons t rest ih =>
    intro acc ha b hb
    by_cases hk : t.1 = key
    · have hstep : alert_step cd now t.2.2.2 t.1 t.2.1 t.2.2.1 acc = acc := by
        subst hk
        exact alert_step_skip cd now t.2.2.2 t.1 t.2.1 t.2.2.1 acc a ha hcd
      rw [run_checks, List.foldl_cons, hstep] at hb
      exact ih acc ha b hb
    · have hmap : (alert_step cd now t.2.2.2 t.1 t.2.1 t.2.2.1 acc).2 key
          = acc.2 key :=
        alert_step_map_ne cd now t.2.2.2 t.1 t.2.1 t.2.2.1 acc key
          fun h => hk h.symm
      rw [run_checks, List.foldl_cons] at hb
      rcases ih _ (hmap.trans ha) b hb with hmem | hne
      · rcases alert_step_mem cd now t.2.2.2 t.1 t.2.1 t.2.2.1 acc b hmem with
          h | ⟨hty, _⟩
        · exact Or.inl h
        · refine Or.inr ?_
          rw [hty]
          exact hk
      · exact Or.inr hne

/-- The emitted alerts of the checks loop grow monotonically. -/
theorem run_checks_mono (cd now : ℚ) :
    ∀ (checks : List (MetricName × ℚ × Bool × HealthThreshold))
      (acc : List HealthAlert × (MetricName → Option HealthAlert))
      (b : HealthAlert), b ∈ acc.1 → b ∈ (run_checks cd now checks acc).1 := by
  intro checks
  induction checks with
  | nil => intro acc b hb; exact hb
  | cons t rest ih =>
    intro acc b hb
    rw [run_checks, List.foldl_cons]
    exact ih _ b (alert_step_mono cd now t.2.2.2 t.1 t.2.1 t.2.2.1 acc b hb)

/-- A checked key (keys pairwise distinct) whose active alert is out of
cooldown and whose value still breaches emits a fresh alert for the key
in the checks loop. -/
theorem run_checks_fire (cd now : ℚ) (key : MetricName) (v : ℚ) (rev : Bool)
    (thr : HealthThreshold) (a : HealthAlert) (sev : Severity)
    (hcd : ¬(now - a.timestamp < cd * 60))
    (hsev : severity_for rev thr v = some sev) :
    ∀ (checks : List (MetricName × ℚ × Bool × HealthThreshold))
      (acc : List HealthAlert × (MetricName → Option HealthAlert)),
      (checks.map Prod.fst).Nodup →
      (key, v, rev, thr) ∈ checks →
      acc.2 key = some a →
      ∃ b ∈ (run_checks cd now checks acc).1,
        b.alert_type = key ∧ b.timestamp = now := by
  intro checks
  induction checks with
  | nil => intro acc _ hmem; cases hmem
  | cons t rest ih =>
    intro acc hnd hmem ha
    rcases List.mem_cons.mp hmem with heq | hrest
    · subst heq
      have hfire := alert_step_fire cd now thr key v rev acc a sev ha hcd hsev
      rw [run_checks, List.foldl_cons]
      refine ⟨{ timestamp := now, alert_type := key, severity := sev,
                value := v,
                threshold := if sev = .warning then thr.warning_level
                             else thr.critical_level },
              run_checks_mono cd now rest _ _ ?_, rfl, rfl⟩
      rw [hfire]
      exact List.mem_append.mpr (Or.inr (List.mem_singleton.mpr rfl))
    · have hk : t.1 ≠ key := by
        intro h
        have hin : key ∈ rest.map Prod.fst :=
          List.mem_map.mpr ⟨(key, v, rev, thr), hrest, rfl⟩
        exact (List.nodup_cons.mp hnd).1 (h ▸ hin)
      have hmap : (alert_step cd now t.2.2.2 t.1 t.2.1 t.2.2.1 acc).2 key
          = acc.2 key :=
        alert_step_map_ne cd now t.2.2.2 t.1 t.2.1 t.2.2.1 acc key
          fun h => hk h.symm
      rw [run_checks, List.foldl_cons]
      exact ih _ (List.nodup_cons.mp hnd).2 hrest (hmap.trans ha)

/-- Core of C6, stated on `_check_alert_conditions`: given an active
alert for a key, an update whose instant is within the cooldown window
emits no alert for that key, while an update at or past the cooldown
whose value still breaches a threshold emits a fresh alert for the key
stamped with the current instant. -/
theorem check_alert_conditions_cooldown (s : MonitorState) (now : ℚ)
    (m : HMetrics) (key : MetricName) (a : HealthAlert)
    (hact : s.active_alerts key = some a) :
    (now - a.timestamp < s.alert_cooldown_minutes * 60 →
      ∀ b ∈ (check_alert_conditions s now m).1, b.alert_type ≠ key) ∧
    (¬(now - a.timestamp < s.alert_cooldown_minutes * 60) →
      severity_for (reversed_logic key) (s.thresholds key)
        (check_value key s.consecutive_failures m) ≠ none →
      ∃ b ∈ (check_alert_conditions s now m).1,
        b.alert_type = key ∧ b.timestamp = now) := by
  constructor
  · intro hcd b hb
    have hsup := run_checks_suppress s.alert_cooldown_minutes now key a hcd
      (monitor_checks s m) ([], s.active_alerts) hact b hb
    rcases hsup with h | h
    · cases h
    · exact h
  · intro hcd hsev
    obtain ⟨sev, hsev'⟩ := Option.ne_none_iff_exists'.mp hsev
    have hnd : ((monitor_checks s m).map Prod.fst).Nodup := by
      simp [monitor_checks]
    have hmem : (key, check_value key s.consecutive_failures m,
        reversed_logic key, s.thresholds key) ∈ monitor_checks s m := by
      cases key <;> simp [monitor_checks, check_value, reversed_logic]
    exact run_checks_fire s.alert_cooldown_minutes now key _ _ _ a sev hcd
      hsev' (monitor_checks s m) ([], s.active_alerts) hnd hmem hact

/-- C6: for every metric key monitored by the store health monitor with
an active alert for that key, an `update_status` call while the active
alert is younger than the cooldown window emits no second alert for the
key (whether or not the value still breaches); once the cooldown has
elapsed and the metric still breaches its threshold, a new alert for
the key is emitted again, stamped with the update's instant. -/
theorem alert_cooldown_per_key (s : MonitorState) (now : ℚ)
    (statusHealthy : Bool) (m : HMetrics) (key : MetricName) (a : HealthAlert)
    (hact : s.active_alerts key = some a) :
    (now - a.timestamp < s.alert_cooldown_minutes * 60 →
      ∀ b ∈ (monitor_update_status s now statusHealthy m).1,
        b.alert_type ≠ key) ∧
    (¬(now - a.timestamp < s.alert_cooldown_minutes * 60) →
      severity_for (reversed_logic key) (s.thresholds key)
        (check_value key
          (if statusHealthy then 0 else s.consecutive_failures + 1) m)
        ≠ none →
      ∃ b ∈ (monitor_update_status s now statusHealthy m).1,
        b.alert_type = key ∧ b.timestamp = now) := by
  cases statusHealthy
  · exact check_alert_conditions_cooldown
      { s with consecutive_failures := s.consecutive_failures + 1 }
      now m key a hact
  · exact check_alert_conditions_cooldown
      { s with consecutive_failures := 0, last_successful_check := now }
      now m key a hact

/-- C6 witness: with an active `response_time_ms` alert raised at
instant 0 and a 5-minute cooldown, an update at instant 100 whose
response time still breaches emits no `response_time_ms` alert. -/
theorem alert_cooldown_per_key_witness :
    (100 : ℚ) - alertA.timestamp < monS0.alert_cooldown_minutes * 60 ∧
    ∀ b ∈ (monitor_update_status monS0 100 true hmBreaching).1,
      b.alert_type ≠ MetricName.response_time_ms :=
  ⟨by norm_num [alertA, monS0],
   (alert_cooldown_per_key monS0 100 true hmBreaching .response_time_ms alertA
      rfl).1 (by norm_num [alertA, monS0])⟩

/-- C7: from a fresh monitor with the default success-rate thresholds
(warning 95, critical 90; lower is worse), an update with success rate
92 emits exactly one alert — a warning for the `success_rate` key,
which becomes the only active alert — and a subsequent update with
success rate 96 emits nothing, marks that alert resolved, and removes
it from the active alerts. -/
theorem success_rate_alert_lifecycle :
    (monitor_update_status monInit 0 true hmRate92).1 = [alert92] ∧
    (monitor_update_status monInit 0 true hmRate92).2.2.active_alerts
        .success_rate = some alert92 ∧
    (monitor_update_status monInit 0 true hmRate92).2.2.active_alerts
        .response_time_ms = none ∧
    (monitor_update_status monInit 0 true hmRate92).2.2.active_alerts
        .connection_pool_usage = none ∧
    (monitor_update_status monInit 0 true hmRate92).2.2.active_alerts
        .consecutive_failures = none ∧
    (monitor_update_status
        (monitor_update_status monInit 0 true hmRate92).2.2
        10 true hmRate96).1 = [] ∧
    (monitor_update_status
        (monitor_update_status monInit 0 true hmRate92).2.2
        10 true hmRate96).2.1
      = [{ alert92 with resolved := true, resolved_at := some 10 }] ∧
    (monitor_update_status
        (monitor_update_status monInit 0 true hmRate92).2.2
        10 true hmRate96).2.2.active_alerts .success_rate = none := by
  have h1 : ¬((0 : ℚ) ≥ 5000) := by norm_num
  have h2 : ¬((0 : ℚ) ≥ 1000) := by norm_num
  have h3 : ¬((0 : ℚ) ≥ 90) := by norm_num
  have h4 : ¬((0 : ℚ) ≥ 70) := by norm_num
  have h5 : ¬((92 : ℚ) ≤ 90) := by norm_num
  have h6 : (92 : ℚ) ≤ 95 := by norm_num
  have h7 : ¬((0 : ℚ) ≥ 5) := by norm_num
  have h8 : ¬((0 : ℚ) ≥ 3) := by norm_num
  have h9 : ¬((92 : ℚ) > 95) := by norm_num
  have h10 : (10 : ℚ) - 0 < 5 * 60 := by norm_num
  have h11 : (96 : ℚ) > 95 := by norm_num
  have h12 : (10 : ℚ) < 5 * 60 := by norm_num
  have h13 : ¬((96 : ℚ) ≤ 90) := by norm_num
  have h14 : ¬((96 : ℚ) ≤ 95) := by norm_num
  have h15 : ¬((95 : ℚ) < 92) := by norm_num
  have h16 : (95 : ℚ) < 96 := by norm_num
  simp [monitor_update_status, check_alert_conditions, run_checks,
    monitor_checks, alert_step, severity_for, check_resolved_alerts,
    should_resolve, metric_value?, default_thresholds, monInit, alert92,
    hmRate92, hmRate96, h1, h2, h3, h4, h5, h6, h7, h8, h9, h10, h11,
    h12, h13, h14, h15, h16]

end Ezbot
